import Mathlib

/-!
Verification development for the ONNX bridge wrapper
(`onnx_bridge_wrapper.h`): the streaming inference session manager that
exposes engine sessions, streaming ASR (recognizer + stream), TTS, and
token-streaming text generation behind opaque handles.

The header is a pure interface; the behaviour of each operation is
modelled from the specification (handle registry, state machines,
result-code discipline), while the enumerations, signatures and return
types are taken directly from the header.  Opaque `void*` handles are
embedded as natural numbers, `0` playing the role of the null handle.
Native float32 audio samples carry no arithmetic meaning in this core,
so they are embedded as opaque integer values.
-/

set_option linter.unusedVariables false

namespace RA

/-- Audio samples are float32 values at the C boundary; the session manager
never computes with them, so they are embedded as opaque integers. -/
abbrev Sample := Int

/-- Result codes, from `ra_result_code` (onnx_bridge_wrapper.h, lines 19-29). -/
inductive ra_result_code where
  | success
  | initFailed
  | modelLoadFailed
  | inferenceFailed
  | invalidHandle
  | invalidParams
  | outOfMemory
  | notImplemented
  | unknown
deriving DecidableEq

/-- The integer value of each result code, as fixed by the header's enum. -/
def ra_result_code.toInt : ra_result_code → Int
  | .success => 0
  | .initFailed => -1
  | .modelLoadFailed => -2
  | .inferenceFailed => -3
  | .invalidHandle => -4
  | .invalidParams => -5
  | .outOfMemory => -6
  | .notImplemented => -7
  | .unknown => -99

/-- All constructors of `ra_result_code`. -/
def ra_result_code.all : List ra_result_code :=
  [.success, .initFailed, .modelLoadFailed, .inferenceFailed, .invalidHandle,
   .invalidParams, .outOfMemory, .notImplemented, .unknown]

/-- The integer values the boundary may report, per the header's enum. -/
def resultCodeValues : List Int := [0, -1, -2, -3, -4, -5, -6, -7, -99]

/-- Modality types, from `ra_modality_type` (header lines 32-39). -/
inductive ra_modality_type where
  | textToText
  | voiceToText
  | textToVoice
  | imageToText
  | textToImage
  | multimodal
deriving DecidableEq

/-- The integer value of each modality, as fixed by the header's enum. -/
def ra_modality_type.toCInt : ra_modality_type → Int
  | .textToText => 0
  | .voiceToText => 1
  | .textToVoice => 2
  | .imageToText => 3
  | .textToImage => 4
  | .multimodal => 5

/-- Audio formats, from `ra_audio_format` (header lines 42-49). -/
inductive ra_audio_format where
  | pcm
  | wav
  | mp3
  | flac
  | aac
  | opus
deriving DecidableEq

/-- Audio configuration, from `ra_audio_config` (header lines 52-57). -/
structure ra_audio_config where
  sample_rate : Int
  channels : Int
  bits_per_sample : Int
  format : ra_audio_format
deriving DecidableEq

/-- Modelled from the spec: the bridge must reject audio configs it cannot
interpret with `InvalidParams` (§3); a config is interpretable when its
numeric fields are positive. -/
def ra_audio_config.valid (c : ra_audio_config) : Bool :=
  decide (0 < c.sample_rate) && decide (0 < c.channels) &&
    decide (0 < c.bits_per_sample)

/-! ### The handle registry

The spec (§4.1, §9) models opaque handles as a table mapping small integer
keys to boxed resources.  `Table α` is such a table; the null handle `0` is
never allocated (allocation starts at key `1`). -/

/-- A handle table: association list from handle values to live resources. -/
abbrev Table (α : Type) : Type := List (Nat × α)

/-- Resolve a handle to its live resource, or `none` for a dead/null handle. -/
def Table.find? {α : Type} (t : Table α) (k : Nat) : Option α :=
  match t with
  | [] => none
  | (a, v) :: rest => if a = k then some v else Table.find? rest k

/-- Replace the resource stored for a live handle (no-op on absent keys). -/
def Table.set {α : Type} (t : Table α) (k : Nat) (v : α) : Table α :=
  match t with
  | [] => []
  | (a, u) :: rest =>
    if a = k then (a, v) :: Table.set rest k v else (a, u) :: Table.set rest k v

/-- Remove a handle's entry, invalidating the handle. -/
def Table.erase {α : Type} (t : Table α) (k : Nat) : Table α :=
  match t with
  | [] => []
  | (a, v) :: rest =>
    if a = k then Table.erase rest k else (a, v) :: Table.erase rest k

theorem Table.find?_set_self {α : Type} (t : Table α) (k : Nat) (v u : α)
    (h : t.find? k = some u) : (t.set k v).find? k = some v := by
  induction t with
  | nil => simp [Table.find?] at h
  | cons p rest ih =>
    obtain ⟨a, b⟩ := p
    by_cases hak : a = k
    · simp [Table.set, Table.find?, hak]
    · simp only [Table.find?, if_neg hak] at h
      simp only [Table.set, if_neg hak, Table.find?, if_neg hak]
      exact ih h

theorem Table.find?_erase_self {α : Type} (t : Table α) (k : Nat) :
    (t.erase k).find? k = none := by
  induction t with
  | nil => simp [Table.erase, Table.find?]
  | cons p rest ih =>
    obtain ⟨a, b⟩ := p
    by_cases hak : a = k
    · simpa [Table.erase, hak] using ih
    · simpa [Table.erase, Table.find?, hak] using ih

theorem Table.erase_of_find?_none {α : Type} (t : Table α) (k : Nat)
    (h : t.find? k = none) : t.erase k = t := by
  induction t with
  | nil => rfl
  | cons p rest ih =>
    obtain ⟨a, b⟩ := p
    by_cases hak : a = k
    · simp [Table.find?, hak] at h
    · simp only [Table.find?, if_neg hak] at h
      simp [Table.erase, hak, ih h]

theorem Table.erase_erase {α : Type} (t : Table α) (k : Nat) :
    (t.erase k).erase k = t.erase k :=
  Table.erase_of_find?_none _ _ (Table.find?_erase_self t k)

theorem Table.find?_erase_ne {α : Type} (t : Table α) (k k2 : Nat)
    (hne : k2 ≠ k) : (t.erase k).find? k2 = t.find? k2 := by
  induction t with
  | nil => rfl
  | cons p rest ih =>
    obtain ⟨a, b⟩ := p
    by_cases hak : a = k
    · subst hak
      simp [Table.erase, Table.find?, ih, Ne.symm hne]
    · simp [Table.erase, Table.find?, hak, ih]

/-! ### Resources -/

/-- An engine session (`ra_onnx_handle`): configuration/model-load phase plus
the selected modality (spec §3, §4.2). -/
structure EngineSession where
  initialized : Bool
  modelLoaded : Bool
  modality : ra_modality_type
  cfg : String
  modelPath : String
deriving DecidableEq

/-- The session allocated by `ra_onnx_create`: uninitialized, no model,
default modality TextToText (spec §4.2). -/
def EngineSession.fresh : EngineSession :=
  { initialized := false, modelLoaded := false,
    modality := ra_modality_type.textToText, cfg := "", modelPath := "" }

/-- A streaming ASR recognizer: an immutable loaded model, shared read-only by
its streams (spec §3).  `chunkSize` is the engine-defined amount of buffered
audio needed for one decode step (§4.3); `hypFn` is the external decoding
engine's hypothesis for a consumed audio prefix (out of scope per §1, kept
abstract as a field). -/
structure Recognizer where
  chunkSize : Nat
  sampleRate : Int
  hypFn : List Sample → String

/-- A per-utterance decoding stream: buffered (not yet decoded) audio, consumed
(already decoded) audio, the last decoded hypothesis text, and whether
`inputFinished` was signalled (spec §3, §4.3). -/
structure Stream where
  recognizer : Nat
  buffered : List Sample
  consumed : List Sample
  hyp : String
  finished : Bool
deriving DecidableEq

/-- The stream created by `ra_sherpa_create_stream` from recognizer handle
`r`: no audio, no decode state, empty hypothesis (spec §4.3). -/
def Stream.fresh (r : Nat) : Stream :=
  { recognizer := r, buffered := [], consumed := [], hyp := "", finished := false }

/-- A loaded TTS engine: fixed sample rate and speaker count once loaded
(spec §3); `synthFn` is the external synthesis engine (out of scope per §1),
mapping text, speaker id and speed to the generated samples. -/
structure TtsEngine where
  sampleRate : Int
  numSpeakers : Int
  synthFn : String → Int → Rat → List Sample

/-- The whole bridge state: one generation counter for handle allocation and
one table per resource kind (spec §4.1, §9).  Handle `0` is the null handle
and is never allocated. -/
structure World where
  nextId : Nat
  engines : Table EngineSession
  recognizers : Table Recognizer
  streams : Table Stream
  tts : Table TtsEngine

/-- The bridge state before any create call. -/
def World.init : World :=
  { nextId := 1, engines := [], recognizers := [], streams := [], tts := [] }

/-- Store an updated engine session for handle `h`. -/
def World.setEngine (w : World) (h : Nat) (s : EngineSession) : World :=
  { w with engines := w.engines.set h s }

/-- Store an updated stream for handle `h`. -/
def World.setStream (w : World) (h : Nat) (s : Stream) : World :=
  { w with streams := w.streams.set h s }

/-! ### Modelled external collaborators

The underlying neural-network engines and the JSON payload schema are out of
scope (spec §1, §6); the bridge only observes parse success/failure and the
produced data.  They are modelled as concrete deterministic functions. -/

/-- Modelled from the spec: JSON configuration parsing is an opaque
collaborator; the bridge only observes whether parsing succeeded (§6).
Modelled as rejecting exactly the empty payload. -/
def configParses (config_json : String) : Bool := config_json != ""

/-- Modelled from the spec: a model path is loadable when it is readable and
the format is accepted by the engine (§4.2); modelled as rejecting exactly
the empty path. -/
def modelPathOk (model_path : String) : Bool := model_path != ""

/-- Modelled from the spec: the external batch ASR engine (out of scope,
§1); a deterministic function of the audio and language. -/
def engineTranscribe (audio : List Sample) (language : String) : String :=
  String.append language (toString audio.length)

/-- Modelled from the spec: the external batch synthesis engine (out of
scope, §1); a deterministic function of the text and voice. -/
def engineSynthesize (text voice_id : String) : List Sample :=
  List.replicate text.length 0

/-- Modelled from the spec: the external generation engine's token stream
for a prompt (out of scope, §1); finite, produced one token at a time
(§4.4, §9). -/
def engineGenerate (messages_json system_prompt : String) : List String :=
  messages_json.data.map (fun c => Char.toString c)

/-- Modelled from the spec: the recognizer built from a loadable model
directory — engine-defined positive chunk size, native sample rate, and the
engine's hypothesis function (§4.3). -/
def sherpaRecognizerModel : Recognizer :=
  { chunkSize := 320, sampleRate := 16000,
    hypFn := fun consumed => toString consumed.length }

/-- Modelled from the spec: loading the streaming ASR model directory; an
unreadable (empty) directory yields no recognizer, so create returns the
null handle (§4.1). -/
def recognizerModelOf (model_dir config_json : String) : Option Recognizer :=
  if model_dir = "" then none else some sherpaRecognizerModel

/-- Modelled from the spec: the TTS model loaded from a directory — fixed
sample rate and speaker count, plus the external synthesis engine (§3,
§4.5). -/
def sherpaTtsModel : TtsEngine :=
  { sampleRate := 22050, numSpeakers := 1,
    synthFn := fun text _speaker _speed => List.replicate text.length 0 }

/-- Modelled from the spec: loading the TTS model directory; an unreadable
(empty) directory yields no engine, so create returns the null handle. -/
def ttsModelOf (model_dir config_json : String) : Option TtsEngine :=
  if model_dir = "" then none else some sherpaTtsModel

/-! ### Engine session operations (header lines 60-117)

Each operation is modelled from the spec (§4.1, §4.2, §7): resolve the
handle first and return `InvalidHandle` (-4) on failure; usage errors are
detected before touching the engine; failures leave the world unchanged and
output parameters untouched (`none`). -/

/-- Modelled from the spec: `ra_onnx_create` (header line 60) allocates a
fresh uninitialized session and returns its new non-null handle (§4.1). -/
def ra_onnx_create (w : World) : World × Nat :=
  ({ w with nextId := w.nextId + 1,
            engines := (w.nextId, EngineSession.fresh) :: w.engines },
   w.nextId)

/-- Modelled from the spec: `ra_onnx_initialize` (header line 61) parses the
configuration payload; invalid payload is `InvalidParams`; re-initializing
replaces the configuration (§4.2, recommended policy). -/
def ra_onnx_initialize (w : World) (handle : Nat) (config_json : String) :
    Int × World :=
  match w.engines.find? handle with
  | none => (-4, w)
  | some s =>
    if configParses config_json then
      (0, w.setEngine handle { s with initialized := true, cfg := config_json })
    else (-5, w)

/-- Modelled from the spec: `ra_onnx_load_model` (header line 62):
Initialized → ModelLoaded; an unreadable/rejected path is `ModelLoadFailed`
and never transitions state; calling before initialize is a usage error
(`InvalidParams`) (§4.2). -/
def ra_onnx_load_model (w : World) (handle : Nat) (model_path : String) :
    Int × World :=
  match w.engines.find? handle with
  | none => (-4, w)
  | some s =>
    if s.initialized = false then (-5, w)
    else if modelPathOk model_path then
      (0, w.setEngine handle { s with modelLoaded := true, modelPath := model_path })
    else (-2, w)

/-- Modelled from the spec: `ra_onnx_is_model_loaded` (header line 63): pure
query, false outside ModelLoaded (§4.2); `InvalidHandle` on a dead handle. -/
def ra_onnx_is_model_loaded (w : World) (handle : Nat) : Int :=
  match w.engines.find? handle with
  | none => -4
  | some s => if s.modelLoaded then 1 else 0

/-- Modelled from the spec: `ra_onnx_destroy` (header line 64) releases the
resource and invalidates the handle; it is a no-op on the null handle
(§4.1). -/
def ra_onnx_destroy (w : World) (handle : Nat) : World :=
  if handle = 0 then w
  else { w with engines := w.engines.erase handle }

/-- Modelled from the spec: `ra_onnx_set_modality` (header line 68): valid
once Initialized (§4.2). -/
def ra_onnx_set_modality (w : World) (handle : Nat)
    (modality : ra_modality_type) : Int × World :=
  match w.engines.find? handle with
  | none => (-4, w)
  | some s =>
    if s.initialized = false then (-5, w)
    else (0, w.setEngine handle { s with modality })

/-- Modelled from the spec: `ra_onnx_get_modality` (header line 69) returns
the selected modality's enum value; a dead handle reports the
`InvalidHandle` value -4 through the enum-typed return (§7: result code or
sentinel invalid value). -/
def ra_onnx_get_modality (w : World) (handle : Nat) : Int :=
  match w.engines.find? handle with
  | none => -4
  | some s => s.modality.toCInt

/-- Modelled from the spec: `ra_onnx_transcribe` (header lines 72-79): valid
only with modality VoiceToText and ModelLoaded; malformed config is
`InvalidParams`; on failure the output parameter is untouched (§4.2, §7). -/
def ra_onnx_transcribe (w : World) (handle : Nat) (audio : List Sample)
    (audio_config : ra_audio_config) (language : String) :
    Int × World × Option String :=
  match w.engines.find? handle with
  | none => (-4, w, none)
  | some s =>
    if s.modelLoaded = false then (-5, w, none)
    else if s.modality ≠ ra_modality_type.voiceToText then (-5, w, none)
    else if audio_config.valid = false then (-5, w, none)
    else (0, w, some (engineTranscribe audio language))

/-- Modelled from the spec: `ra_onnx_synthesize` (header lines 82-92): valid
only with modality TextToVoice and ModelLoaded; a non-positive rate is
rejected (`InvalidParams`, fixed policy per §4.2); on success the owned
audio buffer, its size, and the duration are written.  The `double`
duration output is modelled at exact millisecond precision:
`num_samples * 1000 / sample_rate` rounded toward minus infinity. -/
def ra_onnx_synthesize (w : World) (handle : Nat) (text voice_id : String)
    (audio_config : ra_audio_config) (rate pitch : Rat) :
    Int × World × Option (List Sample × Nat × Int) :=
  match w.engines.find? handle with
  | none => (-4, w, none)
  | some s =>
    if s.modelLoaded = false then (-5, w, none)
    else if s.modality ≠ ra_modality_type.textToVoice then (-5, w, none)
    else if audio_config.valid = false then (-5, w, none)
    else if rate.num ≤ 0 then (-5, w, none)
    else
      let samples := engineSynthesize text voice_id
      (0, w, some (samples, samples.length,
        ((samples.length : Int) * 1000) / audio_config.sample_rate))

/-- Modelled from the spec: `ra_onnx_generate_text` (header lines 97-104):
valid only with modality TextToText/Multimodal and ModelLoaded; `maxTokens`
bounds the output length (§4.2). -/
def ra_onnx_generate_text (w : World) (handle : Nat)
    (messages_json system_prompt : String) (max_tokens : Int)
    (temperature : Rat) : Int × World × Option String :=
  match w.engines.find? handle with
  | none => (-4, w, none)
  | some s =>
    if s.modelLoaded = false then (-5, w, none)
    else if s.modality ≠ ra_modality_type.textToText ∧
            s.modality ≠ ra_modality_type.multimodal then (-5, w, none)
    else (0, w, some (String.join
      ((engineGenerate messages_json system_prompt).take max_tokens.toNat)))

/-- Modelled from the spec: `ra_onnx_generate_text_stream` (header lines
109-117) drives the token callback once per produced token, synchronously,
stopping at or before `max_tokens` (§4.4); the returned list is the exact
sequence of tokens delivered to the callback, in order. -/
def ra_onnx_generate_text_stream (w : World) (handle : Nat)
    (messages_json system_prompt : String) (max_tokens : Int)
    (temperature : Rat) : Int × World × List String :=
  match w.engines.find? handle with
  | none => (-4, w, [])
  | some s =>
    if s.modelLoaded = false then (-5, w, [])
    else if s.modality ≠ ra_modality_type.textToText ∧
            s.modality ≠ ra_modality_type.multimodal then (-5, w, [])
    else (0, w,
      (engineGenerate messages_json system_prompt).take max_tokens.toNat)

/-! ### Streaming ASR operations (header lines 119-230)

The mutating stream operations (`acceptWaveform`, `decode`,
`inputFinished`, `reset`) are declared `void` in the header: they return
nothing to the caller, so the embedding returns only the updated world.
For each of them a `..._reported` definition records the result code the
call reports to the caller — always `none`, directly from the `void`
return type in the header. -/

/-- Modelled from the spec: `ra_sherpa_create_recognizer` (header lines
133-136) loads the streaming model directory and returns a new handle, or
the null handle on failure. -/
def ra_sherpa_create_recognizer (w : World) (model_dir config_json : String) :
    World × Nat :=
  match recognizerModelOf model_dir config_json with
  | none => (w, 0)
  | some rec =>
    ({ w with nextId := w.nextId + 1,
              recognizers := (w.nextId, rec) :: w.recognizers },
     w.nextId)

/-- Modelled from the spec: `ra_sherpa_create_stream` (header lines 143-145)
creates a fresh stream associated with the given recognizer, or returns the
null handle when the recognizer handle is dead (§4.1, §4.3). -/
def ra_sherpa_create_stream (w : World) (recognizer : Nat) : World × Nat :=
  match w.recognizers.find? recognizer with
  | none => (w, 0)
  | some _ =>
    ({ w with nextId := w.nextId + 1,
              streams := (w.nextId, Stream.fresh recognizer) :: w.streams },
     w.nextId)

/-- Modelled from the spec: `ra_sherpa_accept_waveform` (header lines
154-159) appends the samples to the stream's internal buffer; no decoding
happens here (§4.3).  Resampling behaviour on a mismatched rate is an open
question of the spec (§9) and is not modelled; a dead handle makes the call
a silent no-op (it is `void` and cannot report `InvalidHandle`). -/
def ra_sherpa_accept_waveform (w : World) (stream : Nat) (sample_rate : Int)
    (samples : List Sample) : World :=
  match w.streams.find? stream with
  | none => w
  | some st => w.setStream stream { st with buffered := st.buffered ++ samples }

/-- The header declares `void ra_sherpa_accept_waveform(...)` (lines
154-159): the call reports no result code to the caller. -/
def ra_sherpa_accept_waveform_reported (w : World) (stream : Nat)
    (sample_rate : Int) (samples : List Sample) : Option Int := none

/-- Whether enough buffered audio exists to run one decode step: the
engine-defined chunk is available, or input is finished and residual audio
remains to drain (spec §4.3). -/
def Stream.readyFor (st : Stream) (rec : Recognizer) : Bool :=
  decide (rec.chunkSize ≤ st.buffered.length) ||
    (st.finished && !st.buffered.isEmpty)

/-- Modelled from the spec: `ra_sherpa_is_ready` (header lines 167-170):
pure query, 1 when a decode step can run, 0 otherwise (also 0 on dead
handles, the sentinel invalid value of §7). -/
def ra_sherpa_is_ready (w : World) (recognizer stream : Nat) : Int :=
  match w.recognizers.find? recognizer, w.streams.find? stream with
  | some rec, some st => if st.readyFor rec then 1 else 0
  | _, _ => 0

/-- One decode step (spec §4.3): consume one engine-defined chunk of
buffered audio (or, after `inputFinished`, whatever remains) and refresh
the hypothesis from the engine; when no step can run the stream is left
unchanged (chosen policy: decode when not ready is a no-op). -/
def Stream.decodeStep (st : Stream) (rec : Recognizer) : Stream :=
  if rec.chunkSize ≤ st.buffered.length then
    let c := st.consumed ++ st.buffered.take rec.chunkSize
    { st with buffered := st.buffered.drop rec.chunkSize,
              consumed := c, hyp := rec.hypFn c }
  else if st.finished = true ∧ st.buffered ≠ [] then
    let c := st.consumed ++ st.buffered
    { st with buffered := [], consumed := c, hyp := rec.hypFn c }
  else st

/-- Modelled from the spec: `ra_sherpa_decode` (header lines 177-180) runs
one decode step on the stream; dead handles make the call a silent no-op
(it is `void` and cannot report `InvalidHandle`). -/
def ra_sherpa_decode (w : World) (recognizer stream : Nat) : World :=
  match w.recognizers.find? recognizer, w.streams.find? stream with
  | some rec, some st => w.setStream stream (st.decodeStep rec)
  | _, _ => w

/-- The header declares `void ra_sherpa_decode(...)` (lines 177-180): the
call reports no result code to the caller. -/
def ra_sherpa_decode_reported (w : World) (recognizer stream : Nat) :
    Option Int := none

/-- `ra_sherpa_decode` iterated `n` times on the same handles. -/
def decodeN (recognizer stream : Nat) : Nat → World → World
  | 0, w => w
  | n + 1, w => decodeN recognizer stream n (ra_sherpa_decode w recognizer stream)

/-- Modelled from the spec: `ra_sherpa_get_result` (header lines 188-191)
returns the stream's current best-hypothesis text (§4.3); dead handles
yield the sentinel `none` (a NULL string). -/
def ra_sherpa_get_result (w : World) (recognizer stream : Nat) :
    Option String :=
  match w.recognizers.find? recognizer, w.streams.find? stream with
  | some _, some st => some st.hyp
  | _, _ => none

/-- Modelled from the spec: `ra_sherpa_input_finished` (header line 197)
signals that no more audio will arrive, letting later decodes drain the
residual buffer (§4.3); silent no-op on a dead handle. -/
def ra_sherpa_input_finished (w : World) (stream : Nat) : World :=
  match w.streams.find? stream with
  | none => w
  | some st => w.setStream stream { st with finished := true }

/-- The header declares `void ra_sherpa_input_finished(...)` (line 197):
the call reports no result code to the caller. -/
def ra_sherpa_input_finished_reported (w : World) (stream : Nat) :
    Option Int := none

/-- Modelled from the spec: `ra_sherpa_reset` (header lines 215-218) clears
buffered audio and decode state, returning the stream to `Accepting` while
retaining its recognizer association (§4.3); silent no-op on dead
handles. -/
def ra_sherpa_reset (w : World) (recognizer stream : Nat) : World :=
  match w.recognizers.find? recognizer, w.streams.find? stream with
  | some _, some st => w.setStream stream (Stream.fresh st.recognizer)
  | _, _ => w

/-- The header declares `void ra_sherpa_reset(...)` (lines 215-218): the
call reports no result code to the caller. -/
def ra_sherpa_reset_reported (w : World) (recognizer stream : Nat) :
    Option Int := none

/-- Modelled from the spec: `ra_sherpa_destroy_stream` (header line 224)
releases the stream; no-op on the null handle (§4.1). -/
def ra_sherpa_destroy_stream (w : World) (stream : Nat) : World :=
  if stream = 0 then w
  else { w with streams := w.streams.erase stream }

/-- Modelled from the spec: `ra_sherpa_destroy_recognizer` (header line
230) releases the recognizer; no-op on the null handle (§4.1). -/
def ra_sherpa_destroy_recognizer (w : World) (recognizer : Nat) : World :=
  if recognizer = 0 then w
  else { w with recognizers := w.recognizers.erase recognizer }

/-! ### TTS operations (header lines 232-302) -/

/-- Modelled from the spec: `ra_sherpa_tts_create` (header lines 250-253)
loads the TTS model directory and returns a new handle, or the null handle
on failure. -/
def ra_sherpa_tts_create (w : World) (model_dir config_json : String) :
    World × Nat :=
  match ttsModelOf model_dir config_json with
  | none => (w, 0)
  | some e =>
    ({ w with nextId := w.nextId + 1, tts := (w.nextId, e) :: w.tts },
     w.nextId)

/-- Modelled from the spec: `ra_sherpa_tts_sample_rate` (header line 260)
reports the model's fixed sample rate (§3); 0 on a dead handle. -/
def ra_sherpa_tts_sample_rate (w : World) (tts : Nat) : Int :=
  match w.tts.find? tts with
  | none => 0
  | some e => e.sampleRate

/-- Modelled from the spec: `ra_sherpa_tts_num_speakers` (header line 267)
reports the model's speaker count (§4.5); 0 on a dead handle. -/
def ra_sherpa_tts_num_speakers (w : World) (tts : Nat) : Int :=
  match w.tts.find? tts with
  | none => 0
  | some e => e.numSpeakers

/-- Modelled from the spec: `ra_sherpa_tts_generate` (header lines 282-290):
stateless per call; a speaker id outside `[0, numSpeakers)` is
`InvalidParams`; on success the owned sample buffer, its length, and the
model's sample rate are written; on failure the output parameters are
untouched (`none`) (§4.5, §7). -/
def ra_sherpa_tts_generate (w : World) (tts : Nat) (text : String)
    (speaker_id : Int) (speed : Rat) :
    Int × World × Option (List Sample × Int × Int) :=
  match w.tts.find? tts with
  | none => (-4, w, none)
  | some e =>
    if speaker_id < 0 ∨ e.numSpeakers ≤ speaker_id then (-5, w, none)
    else
      let samples := e.synthFn text speaker_id speed
      (0, w, some (samples, (samples.length : Int), e.sampleRate))

/-- Modelled from the spec: `ra_sherpa_tts_destroy` (header line 302)
releases the TTS engine; no-op on the null handle (§4.1). -/
def ra_sherpa_tts_destroy (w : World) (tts : Nat) : World :=
  if tts = 0 then w
  else { w with tts := w.tts.erase tts }

/-! ### Concrete states used to instantiate the theorems -/

/-- A PCM audio config at 16 kHz mono, 16-bit. -/
def pcmConfig : ra_audio_config :=
  { sample_rate := 16000, channels := 1, bits_per_sample := 16,
    format := ra_audio_format.pcm }

/-- An engine session that is initialized, model-loaded, in TextToText
modality. -/
def readySession : EngineSession :=
  { initialized := true, modelLoaded := true,
    modality := ra_modality_type.textToText, cfg := "c", modelPath := "m" }

/-- A world holding `readySession` at handle 1. -/
def engineReadyWorld : World :=
  { nextId := 2, engines := [(1, readySession)], recognizers := [],
    streams := [], tts := [] }

/-- An engine session that is initialized, model-loaded, in TextToVoice
modality. -/
def voiceSession : EngineSession :=
  { initialized := true, modelLoaded := true,
    modality := ra_modality_type.textToVoice, cfg := "c", modelPath := "m" }

/-- A world holding `voiceSession` at handle 1. -/
def voiceWorld : World :=
  { nextId := 2, engines := [(1, voiceSession)], recognizers := [],
    streams := [], tts := [] }

/-- A world built through the API: recognizer at handle 1, fresh stream at
handle 2. -/
def sherpaWorld : World :=
  (ra_sherpa_create_stream (ra_sherpa_create_recognizer World.init "m" "").1 1).1

/-- A world built through the API: TTS engine at handle 1. -/
def ttsWorld : World := (ra_sherpa_tts_create World.init "m" "").1

/-! ### Claims -/

/-- C1 counterexample: the claim requires every operation taking a handle
argument to return the InvalidHandle result code (-4) when the handle is
invalid, but `ra_sherpa_decode` — one of the operations the claim cites —
is declared `void` in the header (lines 177-180) and reports no result
code at all: at the null recognizer/stream handles it reports `none`, not
`-4`. -/
theorem c1_void_op_reports_no_code :
    ra_sherpa_decode_reported World.init 0 0 ≠ some (-4) := by
  simp [ ra_sherpa_decode_reported]

/-- C1 (amended): for a handle with no live resource (null, destroyed, or
never created), every operation whose return type can carry a result code
returns InvalidHandle (-4) and performs no side effects; the `void`
streaming operations perform no side effects either but report nothing,
and the query operations return their sentinel invalid value. -/
theorem c1_invalid_handle_rejected (w : World) (h hr hs ht : Nat)
    (m : ra_modality_type) (cfg path lang text voice msgs sys : String)
    (audio samples : List Sample) (acfg : ra_audio_config)
    (rate pitch temp speed : Rat) (maxTok spk srate : Int)
    (he : w.engines.find? h = none)
    (hst : w.streams.find? hs = none)
    (htts : w.tts.find? ht = none) :
    ra_onnx_initialize w h cfg = (-4, w) ∧
    ra_onnx_load_model w h path = (-4, w) ∧
    ra_onnx_is_model_loaded w h = -4 ∧
    ra_onnx_set_modality w h m = (-4, w) ∧
    ra_onnx_get_modality w h = -4 ∧
    ra_onnx_transcribe w h audio acfg lang = (-4, w, none) ∧
    ra_onnx_synthesize w h text voice acfg rate pitch = (-4, w, none) ∧
    ra_onnx_generate_text w h msgs sys maxTok temp = (-4, w, none) ∧
    ra_onnx_generate_text_stream w h msgs sys maxTok temp = (-4, w, []) ∧
    ra_sherpa_tts_generate w ht text spk speed = (-4, w, none) ∧
    ra_sherpa_accept_waveform w hs srate samples = w ∧
    ra_sherpa_decode w hr hs = w ∧
    ra_sherpa_input_finished w hs = w ∧
    ra_sherpa_reset w hr hs = w ∧
    ra_sherpa_get_result w hr hs = none ∧
    ra_sherpa_is_ready w hr hs = 0 := by
  refine ⟨?_, ?_, ?_, ?_, ?_, ?_, ?_, ?_, ?_, ?_, ?_, ?_, ?_, ?_, ?_, ?_⟩
  · simp [ ra_onnx_initialize, he]
  · simp [ ra_onnx_load_model, he]
  · simp [ ra_onnx_is_model_loaded, he]
  · simp [ ra_onnx_set_modality, he]
  · simp [ ra_onnx_get_modality, he]
  · simp [ ra_onnx_transcribe, he]
  · simp [ ra_onnx_synthesize, he]
  · simp [ ra_onnx_generate_text, he]
  · simp [ ra_onnx_generate_text_stream, he]
  · simp [ ra_sherpa_tts_generate, htts]
  · simp [ ra_sherpa_accept_waveform, hst]
  · cases hrec : w.recognizers.find? hr <;>
      simp [ ra_sherpa_decode, hrec, hst]
  · simp [ ra_sherpa_input_finished, hst]
  · cases hrec : w.recognizers.find? hr <;>
      simp [ ra_sherpa_reset, hrec, hst]
  · cases hrec : w.recognizers.find? hr <;>
      simp [ ra_sherpa_get_result, hrec, hst]
  · cases hrec : w.recognizers.find? hr <;>
      simp [ ra_sherpa_is_ready, hrec, hst]

/-- Witness for C1 (amended) at the null handle in the initial world. -/
theorem c1_invalid_handle_rejected_w :
    World.init.engines.find? 0 = none ∧
    ra_onnx_initialize World.init 0 "c" = (-4, World.init) :=
  ⟨rfl, (c1_invalid_handle_rejected World.init 0 0 0 0
    ra_modality_type.textToText "c" "m" "en" "t" "v" "[]" "s" [] [] pcmConfig
    1 0 1 1 0 0 16000 rfl rfl rfl).1⟩

/-- C2: destroying with the null handle argument is a no-op, destroying the
same handle a second time is a no-op that changes nothing — in particular
it releases no live resource and leaves every other live session's state
unchanged — for each destroy operation of the header. -/
theorem c2_destroy_null_and_double (w : World) (h h2 : Nat) :
    ra_onnx_destroy w 0 = w ∧
    ra_onnx_destroy (ra_onnx_destroy w h) h = ra_onnx_destroy w h ∧
    (h2 ≠ h → (ra_onnx_destroy w h).engines.find? h2 = w.engines.find? h2) ∧
    ra_sherpa_destroy_stream w 0 = w ∧
    ra_sherpa_destroy_stream (ra_sherpa_destroy_stream w h) h =
      ra_sherpa_destroy_stream w h ∧
    ra_sherpa_destroy_recognizer w 0 = w ∧
    ra_sherpa_destroy_recognizer (ra_sherpa_destroy_recognizer w h) h =
      ra_sherpa_destroy_recognizer w h ∧
    ra_sherpa_tts_destroy w 0 = w ∧
    ra_sherpa_tts_destroy (ra_sherpa_tts_destroy w h) h =
      ra_sherpa_tts_destroy w h := by
  by_cases h0 : h = 0
  · subst h0
    refine ⟨?_, ?_, ?_, ?_, ?_, ?_, ?_, ?_, ?_⟩ <;>
      simp [ ra_onnx_destroy, ra_sherpa_destroy_stream,
        ra_sherpa_destroy_recognizer, ra_sherpa_tts_destroy]
  · refine ⟨?_, ?_, ?_, ?_, ?_, ?_, ?_, ?_, ?_⟩
    · simp [ ra_onnx_destroy]
    · simp [ ra_onnx_destroy, h0, Table.erase_erase]
    · intro hne
      simp [ ra_onnx_destroy, h0, Table.find?_erase_ne _ _ _ hne]
    · simp [ ra_sherpa_destroy_stream]
    · simp [ ra_sherpa_destroy_stream, h0, Table.erase_erase]
    · simp [ ra_sherpa_destroy_recognizer]
    · simp [ ra_sherpa_destroy_recognizer, h0, Table.erase_erase]
    · simp [ ra_sherpa_tts_destroy]
    · simp [ ra_sherpa_tts_destroy, h0, Table.erase_erase]

/-- Witness for C2: create a session (handle 1), destroy it twice; the
second destroy changes nothing, and handle 2 is untouched by the first. -/
theorem c2_destroy_null_and_double_w :
    (ra_onnx_create World.init).1.engines.find? 1 = some EngineSession.fresh ∧
    ra_onnx_destroy (ra_onnx_destroy (ra_onnx_create World.init).1 1) 1 =
      ra_onnx_destroy (ra_onnx_create World.init).1 1 ∧
    (ra_onnx_destroy (ra_onnx_create World.init).1 1).engines.find? 2 =
      (ra_onnx_create World.init).1.engines.find? 2 :=
  ⟨rfl, (c2_destroy_null_and_double (ra_onnx_create World.init).1 1 2).2.1,
    (c2_destroy_null_and_double (ra_onnx_create World.init).1 1 2).2.2.1
      (by decide)⟩

/-- C10: the streaming ASR mutating operations `acceptWaveform`, `decode`,
`inputFinished` and `reset` are declared `void` in the header: for every
input, including dead or null stream/recognizer handles, they report no
result code — no failure, not even InvalidHandle, can reach the caller —
and on a dead stream handle they are silent no-ops. -/
theorem c10_void_stream_ops (w : World) (r s : Nat) (srate : Int)
    (samples : List Sample) :
    ra_sherpa_accept_waveform_reported w s srate samples = none ∧
    ra_sherpa_decode_reported w r s = none ∧
    ra_sherpa_input_finished_reported w s = none ∧
    ra_sherpa_reset_reported w r s = none ∧
    (w.streams.find? s = none →
      ra_sherpa_accept_waveform w s srate samples = w ∧
      ra_sherpa_decode w r s = w ∧
      ra_sherpa_input_finished w s = w ∧
      ra_sherpa_reset w r s = w) := by
  refine ⟨rfl, rfl, rfl, rfl, fun hst => ⟨?_, ?_, ?_, ?_⟩⟩
  · simp [ ra_sherpa_accept_waveform, hst]
  · cases hrec : w.recognizers.find? r <;>
      simp [ ra_sherpa_decode, hrec, hst]
  · simp [ ra_sherpa_input_finished, hst]
  · cases hrec : w.recognizers.find? r <;>
      simp [ ra_sherpa_reset, hrec, hst]

/-- Witness for C10 at the null handles in the initial world. -/
theorem c10_void_stream_ops_w :
    World.init.streams.find? 0 = none ∧
    ra_sherpa_decode_reported World.init 0 0 = none ∧
    ra_sherpa_decode World.init 0 0 = World.init :=
  ⟨rfl, (c10_void_stream_ops World.init 0 0 16000 []).2.1,
    ((c10_void_stream_ops World.init 0 0 16000 []).2.2.2.2 rfl).2.1⟩

/-- C3: whenever a fallible engine-session operation (initialize, loadModel,
transcribe, synthesize, generateText) returns a nonzero result code, the
world — in particular the session's observable state, so a failed
loadModel leaves `isModelLoaded` unchanged — is untouched and every output
parameter stays unwritten. -/
theorem c3_failure_leaves_state (w : World) (h : Nat)
    (cfg path lang text voice msgs sys : String) (audio : List Sample)
    (acfg : ra_audio_config) (rate pitch temp : Rat) (maxTok : Int) :
    (( ra_onnx_initialize w h cfg).1 ≠ 0 →
      ( ra_onnx_initialize w h cfg).2 = w) ∧
    ((ra_onnx_load_model w h path).1 ≠ 0 →
      (ra_onnx_load_model w h path).2 = w ∧
      ra_onnx_is_model_loaded (ra_onnx_load_model w h path).2 h =
        ra_onnx_is_model_loaded w h) ∧
    ((ra_onnx_transcribe w h audio acfg lang).1 ≠ 0 →
      (ra_onnx_transcribe w h audio acfg lang).2.1 = w ∧
      (ra_onnx_transcribe w h audio acfg lang).2.2 = none) ∧
    ((ra_onnx_synthesize w h text voice acfg rate pitch).1 ≠ 0 →
      (ra_onnx_synthesize w h text voice acfg rate pitch).2.1 = w ∧
      (ra_onnx_synthesize w h text voice acfg rate pitch).2.2 = none) ∧
    ((ra_onnx_generate_text w h msgs sys maxTok temp).1 ≠ 0 →
      (ra_onnx_generate_text w h msgs sys maxTok temp).2.1 = w ∧
      (ra_onnx_generate_text w h msgs sys maxTok temp).2.2 = none) := by
  refine ⟨?_, ?_, ?_, ?_, ?_⟩
  · cases hw : w.engines.find? h with
    | none => simp [ ra_onnx_initialize, hw]
    | some s =>
      simp only [ ra_onnx_initialize, hw]
      split <;> simp
  · cases hw : w.engines.find? h with
    | none => simp [ ra_onnx_load_model, hw]
    | some s =>
      simp only [ ra_onnx_load_model, hw]
      repeat' split
      all_goals simp
  · cases hw : w.engines.find? h with
    | none => simp [ ra_onnx_transcribe, hw]
    | some s =>
      simp only [ ra_onnx_transcribe, hw]
      repeat' split
      all_goals simp
  · cases hw : w.engines.find? h with
    | none => simp [ ra_onnx_synthesize, hw]
    | some s =>
      simp only [ ra_onnx_synthesize, hw]
      repeat' split
      all_goals simp
  · cases hw : w.engines.find? h with
    | none => simp [ ra_onnx_generate_text, hw]
    | some s =>
      simp only [ ra_onnx_generate_text, hw]
      repeat' split
      all_goals simp

/-- Witness for C3: at the dead handle 0 every one of these operations
fails (here with InvalidHandle) and the initial world is unchanged, the
transcription output parameter unwritten. -/
theorem c3_failure_leaves_state_w :
    (ra_onnx_transcribe World.init 0 [] pcmConfig "en").1 ≠ 0 ∧
    (ra_onnx_transcribe World.init 0 [] pcmConfig "en").2.1 = World.init ∧
    (ra_onnx_transcribe World.init 0 [] pcmConfig "en").2.2 = none := by
  have hfail : (ra_onnx_transcribe World.init 0 [] pcmConfig "en").1 ≠ 0 := by
    decide
  have := (c3_failure_leaves_state World.init 0 "c" "m" "en" "t" "v" "[]" "s"
    [] pcmConfig 1 0 1 0).2.2.1 hfail
  exact ⟨hfail, this.1, this.2⟩

/-- A drained stream (no buffered audio) is a fixed point of one decode
step, provided the engine chunk size is positive. -/
theorem Stream.decodeStep_drained (st : Stream) (rec : Recognizer)
    (hchunk : 0 < rec.chunkSize) (hdr : st.buffered = []) :
    st.decodeStep rec = st := by
  unfold Stream.decodeStep
  rw [hdr]
  rw [if_neg (by simp only [List.length_nil]; omega), if_neg (by simp)]

/-- One decode call on a drained live stream preserves the recognizer entry
and the stream entry unchanged. -/
theorem decode_preserves_drained (w : World) (r s : Nat) (rec : Recognizer)
    (st : Stream) (hr : w.recognizers.find? r = some rec)
    (hs : w.streams.find? s = some st) (hchunk : 0 < rec.chunkSize)
    (hdr : st.buffered = []) :
    (ra_sherpa_decode w r s).recognizers.find? r = some rec ∧
    (ra_sherpa_decode w r s).streams.find? s = some st := by
  have hstep : st.decodeStep rec = st :=
    Stream.decodeStep_drained st rec hchunk hdr
  constructor
  · simp [ ra_sherpa_decode, hr, hs, World.setStream]
  · simp only [ ra_sherpa_decode, hr, hs]
    rw [hstep]
    exact Table.find?_set_self _ _ _ _ hs

/-- C4: for a live stream whose buffered audio is drained, any number of
further decode calls without an intervening acceptWaveform leaves the text
returned by getResult unchanged. -/
theorem c4_decode_idempotent_when_drained (w : World) (r s : Nat)
    (rec : Recognizer) (st : Stream)
    (hr : w.recognizers.find? r = some rec)
    (hs : w.streams.find? s = some st)
    (hchunk : 0 < rec.chunkSize) (hdr : st.buffered = []) (n : Nat) :
    ra_sherpa_get_result (decodeN r s n w) r s =
      ra_sherpa_get_result w r s := by
  have key : ∀ k w', w'.recognizers.find? r = some rec →
      w'.streams.find? s = some st →
      (decodeN r s k w').recognizers.find? r = some rec ∧
      (decodeN r s k w').streams.find? s = some st := by
    intro k
    induction k with
    | zero => exact fun w' h1 h2 => ⟨h1, h2⟩
    | succ m ih =>
      intro w' h1 h2
      have step := decode_preserves_drained w' r s rec st h1 h2 hchunk hdr
      exact ih _ step.1 step.2
  obtain ⟨k1, k2⟩ := key n w hr hs
  simp [ ra_sherpa_get_result, k1, k2, hr, hs]

/-- Witness for C4: three decode calls on the drained fresh stream of
`sherpaWorld` leave getResult unchanged. -/
theorem c4_decode_idempotent_when_drained_w :
    sherpaWorld.streams.find? 2 = some (Stream.fresh 1) ∧
    ra_sherpa_get_result (decodeN 1 2 3 sherpaWorld) 1 2 =
      ra_sherpa_get_result sherpaWorld 1 2 :=
  ⟨rfl, c4_decode_idempotent_when_drained sherpaWorld 1 2
    sherpaRecognizerModel (Stream.fresh 1) rfl rfl (by decide) rfl 3⟩

/-- C5: resetting a live stream makes its stored state exactly that of a
stream freshly created from the same recognizer (association retained), and
getResult afterwards returns the empty/default result. -/
theorem c5_reset_yields_fresh (w : World) (r s : Nat) (rec : Recognizer)
    (st : Stream) (hr : w.recognizers.find? r = some rec)
    (hs : w.streams.find? s = some st) :
    (ra_sherpa_reset w r s).streams.find? s =
      some (Stream.fresh st.recognizer) ∧
    ra_sherpa_get_result (ra_sherpa_reset w r s) r s = some "" := by
  have hset : (ra_sherpa_reset w r s).streams.find? s =
      some (Stream.fresh st.recognizer) := by
    simp only [ ra_sherpa_reset, hr, hs, World.setStream]
    exact Table.find?_set_self _ _ _ _ hs
  have hrec2 : (ra_sherpa_reset w r s).recognizers.find? r = some rec := by
    simp [ ra_sherpa_reset, hr, hs, World.setStream]
  refine ⟨hset, ?_⟩
  simp [ ra_sherpa_get_result, hrec2, hset, Stream.fresh]

/-- The world `sherpaWorld` after accepting three samples on stream 2. -/
def accWorld : World := ra_sherpa_accept_waveform sherpaWorld 2 16000 [1, 2, 3]

/-- Witness for C5: after accepting audio, reset returns stream 2 to the
fresh state and getResult is empty. -/
theorem c5_reset_yields_fresh_w :
    accWorld.streams.find? 2 =
      some { recognizer := 1, buffered := [1, 2, 3], consumed := [],
             hyp := "", finished := false } ∧
    ra_sherpa_get_result (ra_sherpa_reset accWorld 1 2) 1 2 = some "" :=
  ⟨rfl, (c5_reset_yields_fresh accWorld 1 2 sherpaRecognizerModel
    { recognizer := 1, buffered := [1, 2, 3], consumed := [],
      hyp := "", finished := false } rfl rfl).2⟩

/-- C6: on a valid session where generation is permitted (model loaded,
TextToText or Multimodal modality), streaming generation with
`max_tokens = 0` succeeds with zero callback invocations, and the number
of tokens delivered through the callback never exceeds `max_tokens`. -/
theorem c6_maxtokens_bounds_callbacks (w : World) (h : Nat)
    (ses : EngineSession) (msgs sys : String) (temp : Rat)
    (hfind : w.engines.find? h = some ses)
    (hload : ses.modelLoaded = true)
    (hmod : ses.modality = ra_modality_type.textToText ∨
            ses.modality = ra_modality_type.multimodal) :
    (ra_onnx_generate_text_stream w h msgs sys 0 temp).1 = 0 ∧
    (ra_onnx_generate_text_stream w h msgs sys 0 temp).2.2 = [] ∧
    ∀ maxTok : Int,
      (ra_onnx_generate_text_stream w h msgs sys maxTok temp).2.2.length ≤
        maxTok.toNat := by
  have hcond : ¬ (ses.modality ≠ ra_modality_type.textToText ∧
      ses.modality ≠ ra_modality_type.multimodal) := by
    rcases hmod with hm | hm <;> simp [hm]
  refine ⟨?_, ?_, ?_⟩
  · simp [ ra_onnx_generate_text_stream, hfind, hload, hcond]
  · simp [ ra_onnx_generate_text_stream, hfind, hload, hcond]
  · intro maxTok
    simp only [ ra_onnx_generate_text_stream, hfind, hload]
    rw [if_neg (by simp [hload]), if_neg hcond]
    exact List.length_take_le maxTok.toNat (engineGenerate msgs sys)

/-- Witness for C6: on `engineReadyWorld`'s loaded TextToText session,
maxTokens = 0 returns Success and delivers no token. -/
theorem c6_maxtokens_bounds_callbacks_w :
    engineReadyWorld.engines.find? 1 = some readySession ∧
    (ra_onnx_generate_text_stream engineReadyWorld 1 "hi" "" 0 1).1 = 0 ∧
    (ra_onnx_generate_text_stream engineReadyWorld 1 "hi" "" 0 1).2.2 = [] :=
  ⟨rfl, (c6_maxtokens_bounds_callbacks engineReadyWorld 1 readySession
      "hi" "" 1 rfl rfl (Or.inl rfl)).1,
    (c6_maxtokens_bounds_callbacks engineReadyWorld 1 readySession
      "hi" "" 1 rfl rfl (Or.inl rfl)).2.1⟩

/-- C7: TTS generate with a speaker id outside `[0, numSpeakers)` returns
InvalidParams (-5), leaves the world unchanged and writes none of the
sample/count/rate output parameters; an in-range speaker id can succeed
(handle 1 of `ttsWorld`, speaker 0). -/
theorem c7_tts_speaker_range (w : World) (h : Nat) (e : TtsEngine)
    (text : String) (spk : Int) (speed : Rat)
    (hfind : w.tts.find? h = some e)
    (hout : spk < 0 ∨ ra_sherpa_tts_num_speakers w h ≤ spk) :
    ra_sherpa_tts_generate w h text spk speed = (-5, w, none) ∧
    (ra_sherpa_tts_generate ttsWorld 1 "hi" 0 1).1 = 0 := by
  have hout2 : spk < 0 ∨ e.numSpeakers ≤ spk := by
    simpa [ ra_sherpa_tts_num_speakers, hfind] using hout
  exact ⟨by simp [ ra_sherpa_tts_generate, hfind, hout2], rfl⟩

/-- Witness for C7: speaker 5 on the single-speaker `ttsWorld` engine is
rejected with InvalidParams and no output. -/
theorem c7_tts_speaker_range_w :
    ttsWorld.tts.find? 1 = some sherpaTtsModel ∧
    ra_sherpa_tts_generate ttsWorld 1 "x" 5 1 = (-5, ttsWorld, none) :=
  ⟨rfl, (c7_tts_speaker_range ttsWorld 1 sherpaTtsModel "x" 5 1 rfl
    (Or.inr (by decide))).1⟩

theorem codeMemSuccess : (0 : Int) ∈ resultCodeValues := by decide

theorem codeMemModelLoad : (-2 : Int) ∈ resultCodeValues := by decide

theorem codeMemInvalidHandle : (-4 : Int) ∈ resultCodeValues := by decide

theorem codeMemInvalidParams : (-5 : Int) ∈ resultCodeValues := by decide

/-- C8: the result codes fixed by the header's enum are exactly
Success(0), InitFailed(-1), ModelLoadFailed(-2), InferenceFailed(-3),
InvalidHandle(-4), InvalidParams(-5), OutOfMemory(-6), NotImplemented(-7),
Unknown(-99), and every operation returning a result code returns one of
these values. -/
theorem c8_result_codes_exhaustive (w : World) (h ht : Nat)
    (m : ra_modality_type) (cfg path lang text voice msgs sys : String)
    (audio : List Sample) (acfg : ra_audio_config)
    (rate pitch temp speed : Rat) (maxTok spk : Int) :
    ra_result_code.all.map ra_result_code.toInt = resultCodeValues ∧
    ( ra_onnx_initialize w h cfg).1 ∈ resultCodeValues ∧
    (ra_onnx_load_model w h path).1 ∈ resultCodeValues ∧
    (ra_onnx_set_modality w h m).1 ∈ resultCodeValues ∧
    (ra_onnx_transcribe w h audio acfg lang).1 ∈ resultCodeValues ∧
    (ra_onnx_synthesize w h text voice acfg rate pitch).1 ∈
      resultCodeValues ∧
    (ra_onnx_generate_text w h msgs sys maxTok temp).1 ∈ resultCodeValues ∧
    (ra_onnx_generate_text_stream w h msgs sys maxTok temp).1 ∈
      resultCodeValues ∧
    (ra_sherpa_tts_generate w ht text spk speed).1 ∈ resultCodeValues := by
  refine ⟨by decide, ?_, ?_, ?_, ?_, ?_, ?_, ?_, ?_⟩
  · cases hw : w.engines.find? h with
    | none =>
      simp only [ ra_onnx_initialize, hw]
      exact codeMemInvalidHandle
    | some s =>
      simp only [ ra_onnx_initialize, hw]
      split
      · exact codeMemSuccess
      · exact codeMemInvalidParams
  · cases hw : w.engines.find? h with
    | none =>
      simp only [ ra_onnx_load_model, hw]
      exact codeMemInvalidHandle
    | some s =>
      simp only [ ra_onnx_load_model, hw]
      repeat' split
      all_goals first
        | exact codeMemSuccess
        | exact codeMemModelLoad
        | exact codeMemInvalidParams
  · cases hw : w.engines.find? h with
    | none =>
      simp only [ ra_onnx_set_modality, hw]
      exact codeMemInvalidHandle
    | some s =>
      simp only [ ra_onnx_set_modality, hw]
      split
      · exact codeMemInvalidParams
      · exact codeMemSuccess
  · cases hw : w.engines.find? h with
    | none =>
      simp only [ ra_onnx_transcribe, hw]
      exact codeMemInvalidHandle
    | some s =>
      simp only [ ra_onnx_transcribe, hw]
      repeat' split
      all_goals first
        | exact codeMemSuccess
        | exact codeMemInvalidParams
  · cases hw : w.engines.find? h with
    | none =>
      simp only [ ra_onnx_synthesize, hw]
      exact codeMemInvalidHandle
    | some s =>
      simp only [ ra_onnx_synthesize, hw]
      repeat' split
      all_goals first
        | exact codeMemSuccess
        | exact codeMemInvalidParams
  · cases hw : w.engines.find? h with
    | none =>
      simp only [ ra_onnx_generate_text, hw]
      exact codeMemInvalidHandle
    | some s =>
      simp only [ ra_onnx_generate_text, hw]
      repeat' split
      all_goals first
        | exact codeMemSuccess
        | exact codeMemInvalidParams
  · cases hw : w.engines.find? h with
    | none =>
      simp only [ ra_onnx_generate_text_stream, hw]
      exact codeMemInvalidHandle
    | some s =>
      simp only [ ra_onnx_generate_text_stream, hw]
      repeat' split
      all_goals first
        | exact codeMemSuccess
        | exact codeMemInvalidParams
  · cases hw : w.tts.find? ht with
    | none =>
      simp only [ ra_sherpa_tts_generate, hw]
      exact codeMemInvalidHandle
    | some e =>
      simp only [ ra_sherpa_tts_generate, hw]
      split
      · exact codeMemInvalidParams
      · exact codeMemSuccess

/-- C9: every successful synthesis call reports a duration consistent with
`num_samples / sample_rate`: the duration (in milliseconds) differs from
the exact value `num_samples * 1000 / sample_rate` by less than one
millisecond — stated as exact integer floor bounds. -/
theorem c9_duration_consistent (w : World) (h : Nat) (text voice : String)
    (acfg : ra_audio_config) (rate pitch : Rat) (data : List Sample)
    (n : Nat) (dur : Int)
    (hout : (ra_onnx_synthesize w h text voice acfg rate pitch).2.2 =
      some (data, n, dur)) :
    dur * acfg.sample_rate ≤ (n : Int) * 1000 ∧
    (n : Int) * 1000 < (dur + 1) * acfg.sample_rate := by
  unfold ra_onnx_synthesize at hout
  split at hout
  · simp at hout
  · rename_i s hw
    split at hout
    · simp at hout
    · split at hout
      · simp at hout
      · split at hout
        · simp at hout
        · split at hout
          · simp at hout
          · rename_i hload hmod hvalid hrate
            simp only [Option.some.injEq, Prod.mk.injEq] at hout
            obtain ⟨hdata, hn, hdur⟩ := hout
            have hpos : 0 < acfg.sample_rate := by
              have : acfg.valid = true := by
                cases hv : acfg.valid with
                | false => exact absurd hv hvalid
                | true => rfl
              unfold ra_audio_config.valid at this
              simp only [Bool.and_eq_true, decide_eq_true_eq] at this
              exact this.1.1
            subst hn hdur
            constructor
            · have hmod2 := Int.emod_nonneg ((((engineSynthesize text
                voice).length : Int)) * 1000) hpos.ne'
              have hdiv := Int.ediv_add_emod (((engineSynthesize text
                voice).length : Int) * 1000) acfg.sample_rate
              nlinarith [hdiv, hmod2]
            · have hmod2 := Int.emod_lt_of_pos (((engineSynthesize text
                voice).length : Int) * 1000) hpos
              have hdiv := Int.ediv_add_emod (((engineSynthesize text
                voice).length : Int) * 1000) acfg.sample_rate
              nlinarith [hdiv, hmod2]

/-- Witness for C9: synthesizing "hi" on `voiceWorld` yields 2 samples at
16 kHz and duration 0 ms, satisfying the floor bounds. -/
theorem c9_duration_consistent_w :
    (ra_onnx_synthesize voiceWorld 1 "hi" "v" pcmConfig 1 0).2.2 =
      some (List.replicate 2 0, 2, 0) ∧
    (0 : Int) * pcmConfig.sample_rate ≤ ((2 : Nat) : Int) * 1000 ∧
    ((2 : Nat) : Int) * 1000 < ((0 : Int) + 1) * pcmConfig.sample_rate :=
  ⟨by decide, c9_duration_consistent voiceWorld 1 "hi" "v" pcmConfig 1 0
    (List.replicate 2 0) 2 0 (by decide)⟩

end RA
